import Mathlib

/-!
Verification of the 1Limit failed-transaction diagnosis scripts.

Shallow embedding conventions:
* Hex strings (the Python scripts slice `tx['input'].hex()` and JSON-RPC hex
  payloads) are modelled as lists of hex-digit values (`List Nat`, each < 16),
  taken after the leading `0x`; one 32-byte slot is 64 hex digits.
* Python `int(s, 16)` on a nonempty digit string is `hexVal`; on the empty
  string it raises, modelled as `none` via `pyIntHex`.
* Python slicing `s[a:b]` is `slice`, `s[-40:]` is `last40`, `s.zfill(40)` is
  `zfill40`; all match Python semantics on the digit lists.
* HTTP responses from `requests.post` are `HttpResp` (status code plus the
  optional `result` hex payload, digits after `0x`); a raised transport
  exception is modelled by `Option HttpResp = none`, since the scripts wrap
  everything in one `try`/`except` that skips the rest of the run.
* Python float division of token amounts is modelled with `Rat`; the cited
  values (powers of ten up to 10^18) are exactly representable either way.
-/

namespace OneLimit

/-- Value of a hex-digit list, big-endian: Python `int(s, 16)` for nonempty `s`. -/
def hexVal (ds : List Nat) : Nat := ds.foldl (fun a d => 16 * a + d) 0

/-- Python `int(s, 16)`: raises (here `none`) on the empty string. -/
def pyIntHex (ds : List Nat) : Option Nat :=
  if ds = [] then none else some (hexVal ds)

/-- Python truthiness idiom `int(s, 16) if s else 0` used by analyze_failed_tx. -/
def hexVal0 (ds : List Nat) : Nat := if ds = [] then 0 else hexVal ds

/-- Python slice `s[a:b]` on digit lists. -/
def slice (l : List Nat) (a b : Nat) : List Nat := (l.drop a).take (b - a)

/-- Python slice `s[-40:]`: the last 40 digits (the whole list when shorter). -/
def last40 (l : List Nat) : List Nat := l.drop (l.length - 40)

/-- Python `s.zfill(40)`: left-pad with zero digits up to length 40. -/
def zfill40 (l : List Nat) : List Nat := List.replicate (40 - l.length) 0 ++ l

/-- Decoded order tuple, fields as named in debug_contract_level.py lines 53-60. -/
structure OrderTuple where
  salt : Nat
  maker : List Nat
  receiver : List Nat
  makerAsset : List Nat
  takerAsset : List Nat
  makingAmount : Nat
  takingAmount : Nat
  makerAssetData : List Nat
deriving DecidableEq, Repr

/-- Decoded fill parameters, debug_contract_level.py lines 111-114. -/
structure FillParams where
  r : List Nat
  vs : List Nat
  amount : Nat
  takerTraits : Nat
deriving DecidableEq, Repr

/-- Order decode of debug_contract_level.py lines 49-60: take the first 512
digits as the order tuple, read salt/makingAmount/takingAmount with
`int(_, 16)` (a raised ValueError on an empty slice is `none`), addresses as
the last 40 digits of their slices, makerAssetData verbatim. -/
def debugDecodeOrder (params : List Nat) : Option OrderTuple :=
  let od := params.take 512
  match pyIntHex (slice od 0 64), pyIntHex (slice od 320 384), pyIntHex (slice od 384 448) with
  | some s, some mk, some tk =>
      some { salt := s
             maker := last40 (slice od 64 128)
             receiver := last40 (slice od 128 192)
             makerAsset := last40 (slice od 192 256)
             takerAsset := last40 (slice od 256 320)
             makingAmount := mk
             takingAmount := tk
             makerAssetData := slice od 448 512 }
  | _, _, _ => none

/-- Fill-parameter decode of debug_contract_level.py lines 107-114: the data
after the order tuple, decoded only when at least 256 digits remain. -/
def debugDecodeFill (params : List Nat) : Option FillParams :=
  let rd := params.drop 512
  if 256 ≤ rd.length then
    some { r := slice rd 0 64
           vs := slice rd 64 128
           amount := hexVal (slice rd 128 192)
           takerTraits := hexVal (slice rd 192 256) }
  else none

/-- Slot `i` of the post-selector remainder: digits `64*i` to `64*i + 64`.
Stated from the spec wording (partition the remainder into 32-byte slots). -/
def slot (params : List Nat) (i : Nat) : List Nat := (params.drop (64 * i)).take 64

/-- Low 20 bytes (40 hex digits) of a full 64-digit slot, as the spec words it. -/
def low40 (s : List Nat) : List Nat := s.drop 24

/-- Python chunking of analyze_failed_tx.py line 48:
`[params_data[i:i+64] for i in range(0, len(params_data), 64)]` — 64-digit
chunks in order, the last one possibly short. -/
def chunk64 (s : List Nat) : List (List Nat) :=
  if h : s = [] then []
  else s.take 64 :: chunk64 (s.drop 64)
termination_by s.length
decreasing_by
  have hp : 0 < s.length := List.length_pos.mpr h
  simp
  omega

/-- Address fallback of analyze_failed_tx.py lines 52-55:
`"0x" + c[-40:] if len(c) >= 40 else "0x" + c.zfill(40)`. -/
def analyzeAddr (c : List Nat) : List Nat :=
  if 40 ≤ c.length then last40 c else zfill40 c

/-- Order fields decoded by analyze_failed_tx.py (salt through takingAmount;
it reads no makerAssetData). -/
structure AnalyzeOrder where
  salt : Nat
  maker : List Nat
  receiver : List Nat
  makerAsset : List Nat
  takerAsset : List Nat
  makingAmount : Nat
  takingAmount : Nat
deriving DecidableEq, Repr

/-- Order decode of analyze_failed_tx.py lines 48-57: chunk the remainder into
64-digit pieces and decode only when at least 12 chunks exist; otherwise the
script silently skips the decode (no error value of any kind is produced). -/
def analyzeDecodeOrder (params : List Nat) : Option AnalyzeOrder :=
  let chunks := chunk64 params
  if 12 ≤ chunks.length then
    some { salt := hexVal0 (chunks.getD 0 [])
           maker := analyzeAddr (chunks.getD 1 [])
           receiver := analyzeAddr (chunks.getD 2 [])
           makerAsset := analyzeAddr (chunks.getD 3 [])
           takerAsset := analyzeAddr (chunks.getD 4 [])
           makingAmount := hexVal0 (chunks.getD 5 [])
           takingAmount := hexVal0 (chunks.getD 6 []) }
  else none

/-- Selector digits of `fillOrder` after `0x`: `9fda64bd`. -/
def fillOrderSelector : List Nat := [9, 15, 13, 10, 6, 4, 11, 13]

/-- Status label of analyze_failed_tx.py line 27: the only use the script makes
of the receipt status. -/
def statusLabel (status : Nat) : String :=
  if status = 1 then "SUCCESS" else "FAILED"

/-- Static failure-reason list printed by analyze_failed_tx.py lines 122-127.
The print is unconditional: it depends on nothing computed earlier. -/
def analyzeLikelyFailureReasons : List String :=
  [ "Limit price not achievable at current market rates"
  , "Order expired (timestamp/deadline passed)"
  , "EIP-712 signature validation failed"
  , "Nonce/salt already used (duplicate order)"
  , "Order conditions not met (Router V6 validation)" ]

/-- Diagnosis emitted by analyze_failed_tx.py as a function of the receipt
status: the script prints `analyzeLikelyFailureReasons` unconditionally, so the
result does not depend on `status` (which only feeds `statusLabel`). -/
def analyzeDiagnosis (status : Nat) : List String :=
  analyzeLikelyFailureReasons

/-- Static failure-cause list printed by debug_contract_level.py lines 174-180,
in the printed order. -/
def debugFailureCauses : List String :=
  [ "Insufficient USDC allowance for Router V6"
  , "Insufficient USDC balance"
  , "Invalid order signature"
  , "Order expired or already filled"
  , "Order validation failed (invalid parameters)"
  , "Order conditions not met (price/slippage)" ]

/-- Diagnosis emitted by debug_contract_level.py as a function of the receipt
status and the snapshot balance against the order makingAmount: the script
prints `debugFailureCauses` without consulting any of the three. -/
def debugDiagnosis (status balance makingAmount : Nat) : List String :=
  debugFailureCauses

/-- JSON-RPC HTTP response: status code and the optional `result` hex payload
(digits after the `0x` prefix, so the bare payload `0x` is `some []`; a missing
`result` key is `none`). -/
structure HttpResp where
  status : Nat
  result : Option (List Nat)
deriving DecidableEq, Repr

/-- Balance/allowance value a script displays from one `eth_call` response
(debug_contract_level.py lines 139-145 and 159-165): on HTTP 200 with a usable
payload the scaled value, on HTTP 200 otherwise the displayed zero, on any
other status nothing at all (the snapshot entry is simply absent). -/
def shownBalance (r : HttpResp) : Option Rat :=
  if r.status = 200 then
    some (match r.result with
          | some ds => if ds ≠ [] then (hexVal ds : Rat) / 10 ^ 6 else 0
          | none => 0)
  else none

/-- Snapshot-capture-and-diagnose tail of debug_contract_level.py lines
123-180. A raised transport exception (`none` response) jumps to the outer
`except` and nothing further runs; any delivered HTTP response — success or
failure — lets the run continue, and the failure-cause list is then printed
unconditionally. The result pairs the two captured snapshot entries with the
emitted diagnosis; `none` means the run aborted and emitted nothing. -/
def debugRun (balResp allowResp : Option HttpResp) :
    Option (Option Rat × Option Rat × List String) :=
  match balResp with
  | none => none
  | some b =>
    match allowResp with
    | none => none
    | some a => some (shownBalance b, shownBalance a, debugFailureCauses)

/-- Result of one analyze_failed_tx.py run on given input digits (transport
assumed delivered): the decoded order when the selector matched and enough
chunks were present, whether the wallet-state query was issued, and the
emitted failure-reason list. -/
structure AnalyzeResult where
  order : Option AnalyzeOrder
  snapshotQueried : Bool
  diagnosis : List String
deriving DecidableEq, Repr

/-- Pipeline of analyze_failed_tx.py lines 37-127 over the post-`0x` input
digits: the selector test guards only the decode block; the wallet-state query
and the failure-reason print run unconditionally afterwards. -/
def analyzeRun (input : List Nat) : AnalyzeResult :=
  { order := if slice input 0 8 = fillOrderSelector
             then analyzeDecodeOrder (input.drop 8) else none
    snapshotQueried := true
    diagnosis := analyzeLikelyFailureReasons }

/-- Python `str.lower()` on one character, for the ASCII range the scripts use. -/
def pyLowerChar (c : Char) : Char :=
  if 'A' ≤ c ∧ c ≤ 'Z' then Char.ofNat (c.toNat + 32) else c

/-- Python `str.lower()` on a string. -/
def pyLower (s : String) : String := String.mk (s.data.map pyLowerChar)

/-- USDC contract constant of analyze_failed_tx.py line 11. -/
def USDC_CONTRACT : String := "0x3c499c542cEF5E3811e1192ce70d8cC03d5c3359"

/-- WMATIC contract constant of analyze_failed_tx.py line 12. -/
def WMATIC_CONTRACT : String := "0x0d500B1d8E8eF31E21C99d1Db9A6444d3ADf1270"

/-- Router V6 contract constant of the scripts. -/
def ROUTER_V6 : String := "0x111111125421cA6dc452d289314280a0f8842A65"

/-- Outcome of the token analysis of analyze_failed_tx.py lines 69-77: a
scaled USDC amount, a scaled WMATIC amount, or the unknown-asset report, which
carries the address and no numeric value. -/
inductive NormalizedAmount where
  | usdc (v : Rat)
  | wmatic (v : Rat)
  | unknownAsset (addr : String)
deriving DecidableEq, Repr

/-- Token analysis of analyze_failed_tx.py lines 69-77: case-insensitive match
of the asset address against the two registry constants, scaling by 10^6 for
USDC and 10^18 for WMATIC, and the unknown branch otherwise. -/
def normalizeTokenAmount (asset : String) (raw : Nat) : NormalizedAmount :=
  if pyLower asset = pyLower USDC_CONTRACT then .usdc ((raw : Rat) / 10 ^ 6)
  else if pyLower asset = pyLower WMATIC_CONTRACT then .wmatic ((raw : Rat) / 10 ^ 18)
  else .unknownAsset asset

/-- check_balance of check_wallet_balances.py lines 52-73: transport exception
(`none`), non-200 status, missing `result` key, and the bare `0x` payload all
fall through to `return 0.0`; only HTTP 200 with a nonempty payload yields the
scaled value. -/
def check_balance (resp : Option HttpResp) (decimals : Nat) : Rat :=
  match resp with
  | none => 0
  | some r =>
    if r.status = 200 then
      match r.result with
      | some ds => if ds ≠ [] then (hexVal ds : Rat) / 10 ^ decimals else 0
      | none => 0
    else 0

/-- check_allowance of check_wallet_balances.py lines 75-96: identical response
handling to `check_balance`, with the allowance calldata instead. -/
def check_allowance (resp : Option HttpResp) (decimals : Nat) : Rat :=
  match resp with
  | none => 0
  | some r =>
    if r.status = 200 then
      match r.result with
      | some ds => if ds ≠ [] then (hexVal ds : Rat) / 10 ^ decimals else 0
      | none => 0
    else 0

/-- Python `hex(n)`: `0x` followed by lowercase base-16 digits. -/
def pyHex (n : Nat) : String := "0x" ++ String.mk (Nat.toDigits 16 n)

/-- Python `s.zfill(64)` on strings. -/
def pyZfill64 (s : String) : String :=
  String.mk (List.replicate (64 - s.length) '0') ++ s

/-- One `eth_call` JSON-RPC request as the scripts assemble it: target
contract, calldata, and the block tag in the params array. -/
structure EthCallRequest where
  toAddr : String
  data : String
  blockTag : String
deriving Repr

/-- USDC balanceOf request of debug_contract_level.py lines 128-136: calldata
`0x70a08231` plus the padded wallet, block tag `hex(block_number)`. -/
def usdcBalanceRequest (wallet : String) (blockNumber : Nat) : EthCallRequest :=
  { toAddr := USDC_CONTRACT
    data := "0x70a08231" ++ pyZfill64 (wallet.drop 2)
    blockTag := pyHex blockNumber }

/-- USDC allowance request of debug_contract_level.py lines 148-156: calldata
`0xdd62ed3e` plus padded owner and spender, block tag `hex(block_number)`. -/
def usdcAllowanceRequest (wallet : String) (blockNumber : Nat) : EthCallRequest :=
  { toAddr := USDC_CONTRACT
    data := "0xdd62ed3e" ++ pyZfill64 (wallet.drop 2) ++ pyZfill64 (ROUTER_V6.drop 2)
    blockTag := pyHex blockNumber }

/-- USDC balance request of analyze_failed_tx.py lines 95-103, likewise pinned
to `hex(block_number)`. -/
def analyzeBalanceRequest (wallet : String) (blockNumber : Nat) : EthCallRequest :=
  { toAddr := USDC_CONTRACT
    data := "0x70a08231" ++ pyZfill64 (wallet.drop 2)
    blockTag := pyHex blockNumber }

/-! Helper lemmas. -/

/-- Number of chunks produced by the Python list comprehension: the length
rounded up to whole 64-digit chunks. -/
theorem chunk64_length (s : List Nat) : (chunk64 s).length = (s.length + 63) / 64 := by
  rw [chunk64]
  split
  next h => subst h; rfl
  next h =>
    have hp : 0 < s.length := List.length_pos.mpr h
    rw [List.length_cons, chunk64_length (s.drop 64), List.length_drop]
    omega
termination_by s.length
decreasing_by
  rename_i h
  have hp : 0 < s.length := List.length_pos.mpr h
  simp
  omega

/-- Slicing inside a prefix equals slicing the whole list when the window fits. -/
theorem slice_take_eq (l : List Nat) (a b n : Nat) (hbn : b ≤ n) :
    slice (l.take n) a b = slice l a b := by
  simp only [slice, List.drop_take, List.take_take]
  congr 1
  omega

/-- The slice at offsets `64*i .. 64*i + 64` is slot `i`. -/
theorem slice_eq_slot (l : List Nat) (i : Nat) :
    slice l (64 * i) (64 * i + 64) = slot l i := by
  simp [slice, slot]

/-- A slot inside the list has the full 64 digits. -/
theorem slot_length (l : List Nat) (i : Nat) (h : 64 * i + 64 ≤ l.length) :
    (slot l i).length = 64 := by
  simp [slot]
  omega

/-- On a full slot, the Python `[-40:]` extraction is exactly the low 40 digits. -/
theorem last40_slot (l : List Nat) (i : Nat) (h : 64 * i + 64 ≤ l.length) :
    last40 (slot l i) = low40 (slot l i) := by
  rw [last40, slot_length l i h, low40]

/-- Python `int` succeeds on every nonempty digit string. -/
theorem pyIntHex_of_ne (ds : List Nat) (h : ds ≠ []) : pyIntHex ds = some (hexVal ds) := by
  rw [pyIntHex, if_neg h]

/-- A full slot is nonempty. -/
theorem slot_ne_nil (l : List Nat) (i : Nat) (h : 64 * i + 64 ≤ l.length) :
    slot l i ≠ [] := by
  intro hc
  have hlen := slot_length l i h
  rw [hc] at hlen
  simp at hlen

/-! Claim theorems. -/

/-- C1: for every post-selector remainder with at least 12 full 32-byte slots,
the debug_contract_level decoder maps slot 0 to salt (full-width integer),
slots 1-4 to the low-40-digit maker/receiver/makerAsset/takerAsset addresses,
slots 5-6 to makingAmount/takingAmount (full-width integers), slot 7 to
makerAssetData verbatim, slots 8-9 to the raw signature blobs r/vs, and slots
10-11 to fillAmount/takerTraits (full-width integers), in that order. -/
theorem c1_decoder_slot_layout (params : List Nat) (h : 768 ≤ params.length) :
    debugDecodeOrder params =
      some { salt := hexVal (slot params 0)
             maker := low40 (slot params 1)
             receiver := low40 (slot params 2)
             makerAsset := low40 (slot params 3)
             takerAsset := low40 (slot params 4)
             makingAmount := hexVal (slot params 5)
             takingAmount := hexVal (slot params 6)
             makerAssetData := slot params 7 }
    ∧ debugDecodeFill params =
      some { r := slot params 8
             vs := slot params 9
             amount := hexVal (slot params 10)
             takerTraits := hexVal (slot params 11) } := by
  have hs : ∀ a b : Nat, b ≤ 512 → slice (params.take 512) a b = slice params a b :=
    fun a b hb => slice_take_eq params a b 512 hb
  have e0 : slice params 0 64 = slot params 0 := slice_eq_slot params 0
  have e1 : slice params 64 128 = slot params 1 := slice_eq_slot params 1
  have e2 : slice params 128 192 = slot params 2 := slice_eq_slot params 2
  have e3 : slice params 192 256 = slot params 3 := slice_eq_slot params 3
  have e4 : slice params 256 320 = slot params 4 := slice_eq_slot params 4
  have e5 : slice params 320 384 = slot params 5 := slice_eq_slot params 5
  have e6 : slice params 384 448 = slot params 6 := slice_eq_slot params 6
  have e7 : slice params 448 512 = slot params 7 := slice_eq_slot params 7
  constructor
  · rw [debugDecodeOrder]
    rw [hs 0 64 (by norm_num), hs 320 384 (by norm_num), hs 384 448 (by norm_num),
        hs 64 128 (by norm_num), hs 128 192 (by norm_num), hs 192 256 (by norm_num),
        hs 256 320 (by norm_num), hs 448 512 (by norm_num)]
    rw [e0, e1, e2, e3, e4, e5, e6, e7]
    rw [pyIntHex_of_ne _ (slot_ne_nil params 0 (by omega)),
        pyIntHex_of_ne _ (slot_ne_nil params 5 (by omega)),
        pyIntHex_of_ne _ (slot_ne_nil params 6 (by omega))]
    rw [last40_slot params 1 (by omega), last40_slot params 2 (by omega),
        last40_slot params 3 (by omega), last40_slot params 4 (by omega)]
  · rw [debugDecodeFill]
    have hlen : 256 ≤ (params.drop 512).length := by
      rw [List.length_drop]; omega
    rw [if_pos hlen]
    have d0 : slice (params.drop 512) 0 64 = slot params 8 := by
      simp [slice, slot]
    have d1 : slice (params.drop 512) 64 128 = slot params 9 := by
      simp [slice, slot, List.drop_drop]
    have d2 : slice (params.drop 512) 128 192 = slot params 10 := by
      simp [slice, slot, List.drop_drop]
    have d3 : slice (params.drop 512) 192 256 = slot params 11 := by
      simp [slice, slot, List.drop_drop]
    rw [d0, d1, d2, d3]

/-- C1 witness: the slot layout at a concrete 768-digit remainder. -/
theorem c1_decoder_slot_layout_witness :
    (debugDecodeOrder (List.replicate 768 0) =
      some { salt := hexVal (slot (List.replicate 768 0) 0)
             maker := low40 (slot (List.replicate 768 0) 1)
             receiver := low40 (slot (List.replicate 768 0) 2)
             makerAsset := low40 (slot (List.replicate 768 0) 3)
             takerAsset := low40 (slot (List.replicate 768 0) 4)
             makingAmount := hexVal (slot (List.replicate 768 0) 5)
             takingAmount := hexVal (slot (List.replicate 768 0) 6)
             makerAssetData := slot (List.replicate 768 0) 7 })
    ∧ debugDecodeFill (List.replicate 768 0) =
      some { r := slot (List.replicate 768 0) 8
             vs := slot (List.replicate 768 0) 9
             amount := hexVal (slot (List.replicate 768 0) 10)
             takerTraits := hexVal (slot (List.replicate 768 0) 11) } :=
  c1_decoder_slot_layout (List.replicate 768 0) (by simp only [List.length_replicate]; omega)

/-- C2 counterexample: a remainder of 706 hex digits (353 bytes — not a 32-byte
multiple, and fewer than 12 full slots) is decoded successfully by
analyze_failed_tx rather than failing with TruncatedInput. -/
theorem c2_truncation_counterexample :
    (analyzeDecodeOrder (List.replicate 706 0)).isSome = true ∧
    706 % 64 ≠ 0 ∧ 706 < 768 := by
  refine ⟨?_, by norm_num, by norm_num⟩
  rw [analyzeDecodeOrder]
  simp only [chunk64_length, List.length_replicate]
  norm_num

/-- C2 amended: the analyze_failed_tx decoder has no TruncatedInput failure; it
produces an order exactly when the post-selector remainder holds at least 705
hex digits (eleven full 32-byte slots plus at least one further digit, so the
twelfth chunk may be short), silently yielding nothing on shorter input and
accepting remainders that are not 32-byte multiples. -/
theorem c2_amended_acceptance (params : List Nat) :
    (analyzeDecodeOrder params).isSome = true ↔ 705 ≤ params.length := by
  rw [analyzeDecodeOrder]
  simp only [chunk64_length]
  constructor
  · intro h
    by_contra hc
    rw [if_neg] at h
    · simp at h
    · omega
  · intro h
    rw [if_pos (by omega)]
    rfl

/-- C3 counterexample: with receipt status success (1), the emitted diagnosis
is not empty — the five likely-failure reasons are printed anyway. -/
theorem c3_success_diagnosis_counterexample :
    analyzeDiagnosis 1 = analyzeLikelyFailureReasons ∧ analyzeDiagnosis 1 ≠ [] := by
  refine ⟨rfl, ?_⟩
  simp [analyzeDiagnosis, analyzeLikelyFailureReasons]

/-- C3 amended: the failure-reason list is emitted unconditionally; for every
receipt status, success included, the diagnosis is the same nonempty
five-entry list, and the status only selects the printed label. -/
theorem c3_amended_unconditional_diagnosis (status : Nat) :
    analyzeDiagnosis status = analyzeLikelyFailureReasons ∧
    (analyzeDiagnosis status).length = 5 ∧
    analyzeDiagnosis status ≠ [] ∧
    statusLabel 1 = "SUCCESS" := by
  refine ⟨rfl, rfl, ?_, rfl⟩
  simp [analyzeDiagnosis, analyzeLikelyFailureReasons]

/-- C4 counterexample: with receipt status failed (0), balance 0 and
makingAmount 1000000, the highest-ranked entry of the emitted list is the
allowance cause, not the insufficient-balance cause the claim requires. -/
theorem c4_ranking_counterexample :
    (debugDiagnosis 0 0 1000000).head? = some "Insufficient USDC allowance for Router V6" ∧
    "Insufficient USDC allowance for Router V6" ≠ "Insufficient USDC balance" := by
  exact ⟨rfl, by decide⟩

/-- C4 amended: the debug_contract_level diagnosis is a fixed six-entry list,
independent of receipt status, snapshot balance and makingAmount; the
insufficient-balance cause appears second, below the allowance cause, and no
comparison of balance against makingAmount takes place. -/
theorem c4_amended_static_causes (status balance makingAmount : Nat) :
    debugDiagnosis status balance makingAmount = debugFailureCauses ∧
    (debugDiagnosis status balance makingAmount).head? =
      some "Insufficient USDC allowance for Router V6" ∧
    (debugDiagnosis status balance makingAmount).tail.head? =
      some "Insufficient USDC balance" := by
  exact ⟨rfl, rfl, rfl⟩

/-- C5 counterexample: a run whose balance query succeeded (HTTP 200, payload
digit 5) but whose allowance query failed (HTTP 500) still emits the full
failure-cause list: the captured snapshot is only half present (`none` for the
allowance entry), yet the diagnosis is produced. -/
theorem c5_half_snapshot_counterexample :
    debugRun (some ⟨200, some [5]⟩) (some ⟨500, none⟩) =
      some (some ((5 : Rat) / 10 ^ 6), none, debugFailureCauses) ∧
    debugFailureCauses ≠ [] := by
  constructor
  · rfl
  · simp [debugFailureCauses]

/-- C5 amended: only a raised transport exception aborts the run and
suppresses the diagnosis; whenever both HTTP responses are delivered — whatever
their status codes, even with a half-captured snapshot — the failure-cause list
is emitted unconditionally. -/
theorem c5_amended_run_behavior (b a : HttpResp) (rOpt : Option HttpResp) :
    debugRun (some b) (some a) = some (shownBalance b, shownBalance a, debugFailureCauses) ∧
    debugRun none rOpt = none ∧
    debugRun (some b) none = none ∧
    debugFailureCauses ≠ [] := by
  refine ⟨rfl, rfl, rfl, ?_⟩
  simp [debugFailureCauses]

/-- C6 counterexample: on calldata whose selector digits are all zero (not the
fillOrder selector), the analyze_failed_tx run produces no UnrecognizedSelector
failure and does not abort: the order is silently absent while the wallet-state
query still runs and the failure-reason list is still emitted. -/
theorem c6_selector_counterexample :
    analyzeRun (List.replicate 776 0) =
      { order := none, snapshotQueried := true, diagnosis := analyzeLikelyFailureReasons } ∧
    analyzeLikelyFailureReasons ≠ [] := by
  constructor
  · rw [analyzeRun, if_neg (by decide)]
  · simp [analyzeLikelyFailureReasons]

/-- C6 amended: a selector mismatch skips only the decode block — there is no
UnrecognizedSelector error value — and every downstream stage still runs: the
snapshot query is issued and the failure-reason list is emitted on a run whose
order was never decoded. -/
theorem c6_amended_selector_skip (input : List Nat)
    (h : slice input 0 8 ≠ fillOrderSelector) :
    analyzeRun input =
      { order := none, snapshotQueried := true, diagnosis := analyzeLikelyFailureReasons } ∧
    analyzeLikelyFailureReasons ≠ [] := by
  constructor
  · rw [analyzeRun, if_neg h]
  · simp [analyzeLikelyFailureReasons]

/-- C6 witness: the amended behavior at a concrete wrong-selector calldata. -/
theorem c6_amended_selector_skip_witness :
    analyzeRun (List.replicate 904 0) =
      { order := none, snapshotQueried := true, diagnosis := analyzeLikelyFailureReasons } ∧
    analyzeLikelyFailureReasons ≠ [] :=
  c6_amended_selector_skip (List.replicate 904 0) (by decide)

/-- C7: every balance and allowance query that the diagnosis runs issue while
capturing wallet state carries the block tag `hex(block_number)` of the failing
transaction, and that tag is never the present-tense "latest". -/
theorem c7_block_pinned (wallet : String) (blockNumber : Nat) :
    (usdcBalanceRequest wallet blockNumber).blockTag = pyHex blockNumber ∧
    (usdcAllowanceRequest wallet blockNumber).blockTag = pyHex blockNumber ∧
    (analyzeBalanceRequest wallet blockNumber).blockTag = pyHex blockNumber ∧
    pyHex blockNumber ≠ "latest" := by
  refine ⟨rfl, rfl, rfl, ?_⟩
  intro h
  have h2 := congrArg String.data h
  simp [pyHex, String.data_append] at h2

/-- C8: the address extraction of the debug decoder takes exactly the last 40
hex digits of a 64-digit slot: any two slots agreeing on the low 20 bytes
decode to the same address, whatever the high 12 bytes hold, and the
extraction is total — no input raises an error. -/
theorem c8_address_low_bytes (hi hi2 lo : List Nat)
    (h1 : hi.length = 24) (h2 : hi2.length = 24) (hl : lo.length = 40) :
    last40 (hi ++ lo) = lo ∧ last40 (hi2 ++ lo) = last40 (hi ++ lo) := by
  have e : ∀ x : List Nat, x.length = 24 → last40 (x ++ lo) = lo := by
    intro x hx
    rw [last40, List.length_append, hx, hl]
    have : 24 + 40 - 40 = x.length := by omega
    rw [this, List.drop_left]
  have ehi := e hi h1
  rw [ehi, e hi2 h2]
  exact ⟨rfl, rfl⟩

/-- C8 witness: the extraction at concrete slots with distinct nonzero high
parts and a shared low part. -/
theorem c8_address_low_bytes_witness :
    last40 (List.replicate 24 15 ++ List.replicate 40 2) = List.replicate 40 2 ∧
    last40 (List.replicate 24 1 ++ List.replicate 40 2) =
      last40 (List.replicate 24 15 ++ List.replicate 40 2) :=
  c8_address_low_bytes (List.replicate 24 15) (List.replicate 24 1) (List.replicate 40 2)
    (by simp) (by simp) (by simp)

/-- C9: normalization matches the asset address case-insensitively; a found
asset yields raw divided by ten to the decimal exponent — 10^6 raw units of
the 6-decimal USDC and 10^18 raw units of the 18-decimal WMATIC both
normalize to 1 — and every unregistered address yields the unknown-asset
report, which carries no numeric value and in particular never equals a
numeric zero of either asset kind. -/
theorem c9_normalizer :
    normalizeTokenAmount USDC_CONTRACT 1000000 = .usdc 1 ∧
    normalizeTokenAmount WMATIC_CONTRACT (10 ^ 18) = .wmatic 1 ∧
    (∀ raw : Nat, normalizeTokenAmount USDC_CONTRACT raw = .usdc ((raw : Rat) / 10 ^ 6)) ∧
    (∀ raw : Nat, normalizeTokenAmount (pyLower USDC_CONTRACT) raw =
      .usdc ((raw : Rat) / 10 ^ 6)) ∧
    ∀ (addr : String) (raw : Nat),
      pyLower addr ≠ pyLower USDC_CONTRACT →
      pyLower addr ≠ pyLower WMATIC_CONTRACT →
      normalizeTokenAmount addr raw = .unknownAsset addr ∧
      ∀ q : Rat, normalizeTokenAmount addr raw ≠ .usdc q ∧
                 normalizeTokenAmount addr raw ≠ .wmatic q := by
  refine ⟨?_, ?_, ?_, ?_, ?_⟩
  · rw [normalizeTokenAmount, if_pos rfl]
    norm_num
  · rw [normalizeTokenAmount, if_neg (by decide), if_pos rfl]
    norm_num
  · intro raw
    rw [normalizeTokenAmount, if_pos rfl]
  · intro raw
    rw [normalizeTokenAmount, if_pos (by decide)]
  · intro addr raw hu hw
    rw [normalizeTokenAmount, if_neg hu, if_neg hw]
    refine ⟨rfl, ?_⟩
    intro q
    exact ⟨by simp, by simp⟩

/-- C9 witness: the unknown-asset branch at a concrete unregistered address. -/
theorem c9_normalizer_witness :
    normalizeTokenAmount "0xdead" 7 = .unknownAsset "0xdead" :=
  (c9_normalizer.2.2.2.2 "0xdead" 7 (by decide) (by decide)).1

/-- C10: in the wallet balance checker, a transport exception, a non-200 HTTP
status, a missing result key, and the bare `0x` payload all make
check_balance and check_allowance return the numeric value 0, exactly the
value a genuine zero balance (an all-zero payload) also returns — a failed
query is indistinguishable from a real zero at the interface. -/
theorem c10_zero_on_failure (d : Nat) (r : HttpResp) (h : r.status ≠ 200) :
    check_balance none d = 0 ∧ check_allowance none d = 0 ∧
    check_balance (some r) d = 0 ∧ check_allowance (some r) d = 0 ∧
    check_balance (some ⟨200, none⟩) d = 0 ∧ check_allowance (some ⟨200, none⟩) d = 0 ∧
    check_balance (some ⟨200, some []⟩) d = 0 ∧ check_allowance (some ⟨200, some []⟩) d = 0 ∧
    check_balance (some ⟨200, some (List.replicate 64 0)⟩) d = 0 ∧
    check_allowance (some ⟨200, some (List.replicate 64 0)⟩) d = 0 := by
  have hz : hexVal (List.replicate 64 0) = 0 := by decide
  refine ⟨rfl, rfl, ?_, ?_, rfl, rfl, ?_, ?_, ?_, ?_⟩
  · simp [check_balance, if_neg h]
  · simp [check_allowance, if_neg h]
  · simp [check_balance]
  · simp [check_allowance]
  · rw [show check_balance (some ⟨200, some (List.replicate 64 0)⟩) d
          = (hexVal (List.replicate 64 0) : Rat) / 10 ^ d from rfl, hz]
    simp
  · rw [show check_allowance (some ⟨200, some (List.replicate 64 0)⟩) d
          = (hexVal (List.replicate 64 0) : Rat) / 10 ^ d from rfl, hz]
    simp

/-- C10 witness: the interface values at concrete failed and zero responses. -/
theorem c10_zero_on_failure_witness :
    check_balance none 6 = 0 ∧
    check_balance (some ⟨500, some [1]⟩) 6 = 0 ∧
    check_allowance (some ⟨500, some [1]⟩) 6 = 0 ∧
    check_balance (some ⟨200, some (List.replicate 64 0)⟩) 6 = 0 := by
  have h := c10_zero_on_failure 6 ⟨500, some [1]⟩ (by decide)
  exact ⟨h.1, h.2.2.1, h.2.2.2.1, h.2.2.2.2.2.2.2.2.1⟩

end OneLimit
